import Mathlib

/-!
Verification of the thirtyfour convenience layer (webelement.rs,
session/scriptret.rs, webdriver.rs) over the fantoccini WebDriver client.

The layer is a thin wrapper: each public method forwards one call to the
underlying client and reshapes the result or error. We embed the wrapper
methods as pure functions. The underlying client is asynchronous and
effectful; we model the outcome of each underlying operation, for the
element and session state at hand, as a field of an ElementBehavior
record, so each wrapper method becomes a pure function of the element,
the behavior and its arguments. Machine floats (the f64 rectangle
coordinates) are opaque to this layer, which performs no arithmetic on
them; they are modelled as Int.
-/

/-- JSON values, modelling serde_json::Value as used by this layer. -/
inductive Json where
  | null : Json
  | bool (b : Bool) : Json
  | num (n : Int) : Json
  | str (s : String) : Json
  | arr (elems : List Json) : Json
  | obj (fields : List (String × Json)) : Json

/-- The fantoccini Client held by a session; clones share the same
underlying session, so a client is identified by its session. -/
structure Client where
  sessionId : Nat
deriving DecidableEq, Repr

/-- Cloning a Client shares the underlying session. -/
def Client.clone (c : Client) : Client := c

/-- Modelled from the spec: the SessionHandle type (session/handle.rs is
not in the file set). Per the spec, a session handle is a shared
reference to an active browser automation session, shared by clones. -/
structure SessionHandle where
  client : Client
deriving DecidableEq, Repr

/-- Cloning a SessionHandle shares the same session (Arc semantics). -/
def SessionHandle.clone (h : SessionHandle) : SessionHandle :=
  { client := h.client.clone }

/-- fantoccini ElementRef: the remote element identifier string. -/
structure ElementRef where
  id : String
deriving DecidableEq, Repr

/-- fantoccini Element: a remote element reference paired with the
client that issued it. -/
structure Element where
  client : Client
  element : ElementRef
deriving DecidableEq, Repr

/-- fantoccini Element::from_element_id. -/
def Element.from_element_id (client : Client) (element : ElementRef) : Element :=
  { client := client, element := element }

/-- Cloning an Element shares the client and copies the reference. -/
def Element.clone (e : Element) : Element := e

/-- fantoccini CmdError (external dependency): the error type of
underlying client commands. NoSuchElement carries the WebDriver error
payload; Standard covers every other WebDriver error; NotW3C and
JsonDecode cover protocol and decoding failures. -/
inductive CmdError where
  | NoSuchElement (err : String) : CmdError
  | Standard (err : String) : CmdError
  | NotW3C (v : Json) : CmdError
  | JsonDecode (msg : String) : CmdError

/-- Alias to refer to the fantoccini command error type inside the
declaration of the WebDriverError constructor of the same name. -/
abbrev FantocciniCmdError := CmdError

/-- Modelled from the spec: the WebDriverError enum (error.rs is not in
the file set). The constructors NoSuchElement (carrying the string form
of the failed selector) and CmdError (wrapping an underlying command
error) are witnessed by their uses in webelement.rs; DecodeError wraps a
serde_json deserialization failure, per the spec phrase
"script-return deserialization helpers". -/
inductive WebDriverError where
  | NoSuchElement (selector : String) : WebDriverError
  | CmdError (err : FantocciniCmdError) : WebDriverError
  | DecodeError (msg : String) : WebDriverError

/-- Modelled from the spec: the From CmdError conversion in error.rs
(the "error re-mapping" of the spec, not in the file set), applied by
the question-mark operator in the forwarding methods: a NoSuchElement
command error becomes WebDriverError.NoSuchElement carrying the error
payload, and any other command error is wrapped unchanged as
WebDriverError.CmdError. -/
def WebDriverError.fromCmdError : FantocciniCmdError → WebDriverError
  | CmdError.NoSuchElement e => WebDriverError.NoSuchElement e
  | e => WebDriverError.CmdError e

/-- Lift an underlying command result into a WebDriverResult, as the
question-mark operator does in a method returning WebDriverResult. -/
def liftCmd {A : Type} : Except CmdError A → Except WebDriverError A
  | Except.ok a => Except.ok a
  | Except.error e => Except.error (WebDriverError.fromCmdError e)

/-- fantoccini Locator (external dependency): the selector type taken by
the underlying find and find_all operations. -/
inductive Locator where
  | Css (s : String) : Locator
  | Id (s : String) : Locator
  | LinkText (s : String) : Locator
  | XPath (s : String) : Locator
deriving DecidableEq, Repr

/-- Modelled from the spec: the By selector type (by.rs is not in the
file set), the selector argument of find_element and find_elements. -/
inductive By where
  | Id (s : String) : By
  | XPath (s : String) : By
  | LinkText (s : String) : By
  | Name (s : String) : By
  | Tag (s : String) : By
  | ClassName (s : String) : By
  | Css (s : String) : By
deriving DecidableEq, Repr

/-- Modelled from the spec: the conversion from a By selector to the
underlying fantoccini locator. -/
def By.locator : By → Locator
  | By.Id s => Locator.Id s
  | By.XPath s => Locator.XPath s
  | By.LinkText s => Locator.LinkText s
  | By.Name s => Locator.Css ("[name=" ++ s ++ "]")
  | By.Tag s => Locator.Css s
  | By.ClassName s => Locator.Css ("." ++ s)
  | By.Css s => Locator.Css s

/-- Modelled from the spec: the Display string form of a By selector,
used by the NoSuchElement error carrying "the element query that
failed". -/
def By.toString : By → String
  | By.Id s => "Id(" ++ s ++ ")"
  | By.XPath s => "XPath(" ++ s ++ ")"
  | By.LinkText s => "Link Text(" ++ s ++ ")"
  | By.Name s => "Name(" ++ s ++ ")"
  | By.Tag s => "Tag(" ++ s ++ ")"
  | By.ClassName s => "Class(" ++ s ++ ")"
  | By.Css s => "CSS(" ++ s ++ ")"

/-- The common::types::ElementRect struct returned by rect(). The f64
coordinates are opaque scalars here (no arithmetic is performed on them
by this layer). -/
structure ElementRect where
  x : Int
  y : Int
  width : Int
  height : Int
deriving DecidableEq, Repr

/-- The WebElement struct of webelement.rs: a remote element paired with
the handle of its owning session. -/
structure WebElement where
  element : Element
  handle : SessionHandle
deriving DecidableEq, Repr

/-- derive(Clone) on WebElement: clone each field; the handle clone
shares the session. -/
def WebElement.clone (w : WebElement) : WebElement :=
  { element := w.element.clone, handle := w.handle.clone }

/-- WebElement::new of webelement.rs. -/
def WebElement.new (element : Element) (handle : SessionHandle) : WebElement :=
  { element := element, handle := handle }

/-- The W3C WebDriver element-reference JSON key. -/
def elementKeyW3C : String := "element-6066-11e4-a52e-4f735466cecf"

/-- First value bound to a key in a JSON object field list. -/
def lookupField : List (String × Json) → String → Option Json
  | [], _ => none
  | (k, v) :: rest, key => if k == key then some v else lookupField rest key

/-- Modelled from the spec: serde deserialization of an ElementRefHelper
(the element-reference helper type is not in the file set). Per the
spec, an element reference is an opaque identifier for a DOM node: its
JSON form is an object whose W3C element key holds the identifier
string; anything else fails to deserialize. -/
def elementRefFromJson : Json → Except String ElementRef
  | Json.obj fields =>
    match lookupField fields elementKeyW3C with
    | some (Json.str s) => Except.ok { id := s }
    | _ => Except.error "invalid element reference"
  | _ => Except.error "invalid element reference"

/-- WebElement::from_json of webelement.rs: deserialize the value as an
element reference, then pair an Element built from the handle client
with the handle; a serde error is converted to a WebDriverError by the
question-mark operator. -/
def WebElement.from_json (value : Json) (handle : SessionHandle) :
    Except WebDriverError WebElement :=
  match elementRefFromJson value with
  | Except.error e => Except.error (WebDriverError.DecodeError e)
  | Except.ok element_ref =>
    Except.ok
      { element := Element.from_element_id handle.client.clone element_ref,
        handle := handle }

/-- The ScriptRet struct of session/scriptret.rs: a session handle and
the raw JSON value returned by a script. -/
structure ScriptRet where
  handle : SessionHandle
  value : Json

/-- ScriptRet::new. -/
def ScriptRet.new (handle : SessionHandle) (value : Json) : ScriptRet :=
  { handle := handle, value := value }

/-- serde deserialization of a Vec of raw values: succeeds exactly on a
JSON array, yielding its elements. -/
def jsonAsValueVec : Json → Except String (List Json)
  | Json.arr elems => Except.ok elems
  | _ => Except.error "invalid type: expected a sequence"

/-- Rust collect over an iterator of Results: apply f left to right and
stop at the first error. -/
def tryMapAll {E A B : Type} (f : A → Except E B) : List A → Except E (List B)
  | [] => Except.ok []
  | x :: rest =>
    match f x with
    | Except.error e => Except.error e
    | Except.ok b =>
      match tryMapAll f rest with
      | Except.error e => Except.error e
      | Except.ok bs => Except.ok (b :: bs)

/-- ScriptRet::get_element of session/scriptret.rs. -/
def ScriptRet.get_element (r : ScriptRet) : Except WebDriverError WebElement :=
  WebElement.from_json r.value r.handle

/-- ScriptRet::get_elements of session/scriptret.rs: deserialize the
value as a Vec of raw values (error converted by the question-mark
operator), then convert each with from_json under a clone of the
handle, collecting into a Vec and stopping at the first error. -/
def ScriptRet.get_elements (r : ScriptRet) : Except WebDriverError (List WebElement) :=
  match jsonAsValueVec r.value with
  | Except.error e => Except.error (WebDriverError.DecodeError e)
  | Except.ok values =>
    tryMapAll (fun x => WebElement.from_json x r.handle.clone) values

/-- The observable behavior of the underlying fantoccini Element for the
element and session state at hand: the outcome each underlying
operation would produce. Each wrapper method awaits its underlying
operation exactly once (is_clickable awaits two). -/
structure ElementBehavior where
  tag_name : Except CmdError String
  text : Except CmdError String
  click : Except CmdError Unit
  clear : Except CmdError Unit
  prop : String → Except CmdError (Option String)
  attr : String → Except CmdError (Option String)
  css_value : String → Except CmdError String
  is_selected : Except CmdError Bool
  is_displayed : Except CmdError Bool
  is_enabled : Except CmdError Bool
  rectangle : Except CmdError (Int × Int × Int × Int)
  find : Locator → Except CmdError Element
  find_all : Locator → Except CmdError (List Element)

/-- WebElement::rect: destructure the rectangle tuple into the
ElementRect fields x, y, width, height in order. -/
def WebElement.rect (_w : WebElement) (b : ElementBehavior) :
    Except WebDriverError ElementRect :=
  match b.rectangle with
  | Except.error e => Except.error (WebDriverError.fromCmdError e)
  | Except.ok (x, y, w, h) =>
    Except.ok { x := x, y := y, width := w, height := h }

/-- WebElement::tag_name: forward the underlying tag_name call. -/
def WebElement.tag_name (_w : WebElement) (b : ElementBehavior) :
    Except WebDriverError String :=
  liftCmd b.tag_name

/-- WebElement::text: forward the underlying text call. -/
def WebElement.text (_w : WebElement) (b : ElementBehavior) :
    Except WebDriverError String :=
  liftCmd b.text

/-- WebElement::click: forward the underlying click call. -/
def WebElement.click (_w : WebElement) (b : ElementBehavior) :
    Except WebDriverError Unit :=
  match b.click with
  | Except.error e => Except.error (WebDriverError.fromCmdError e)
  | Except.ok _ => Except.ok ()

/-- WebElement::clear: forward the underlying clear call. -/
def WebElement.clear (_w : WebElement) (b : ElementBehavior) :
    Except WebDriverError Unit :=
  liftCmd b.clear

/-- WebElement::get_property: forward the underlying prop call. -/
def WebElement.get_property (_w : WebElement) (b : ElementBehavior) (name : String) :
    Except WebDriverError (Option String) :=
  liftCmd (b.prop name)

/-- WebElement::get_attribute: forward the underlying attr call. -/
def WebElement.get_attribute (_w : WebElement) (b : ElementBehavior) (name : String) :
    Except WebDriverError (Option String) :=
  liftCmd (b.attr name)

/-- WebElement::get_css_property: forward the underlying css_value call. -/
def WebElement.get_css_property (_w : WebElement) (b : ElementBehavior) (name : String) :
    Except WebDriverError String :=
  liftCmd (b.css_value name)

/-- WebElement::class_name: get_attribute("class"). -/
def WebElement.class_name (w : WebElement) (b : ElementBehavior) :
    Except WebDriverError (Option String) :=
  w.get_attribute b "class"

/-- WebElement::id: get_attribute("id"). -/
def WebElement.id (w : WebElement) (b : ElementBehavior) :
    Except WebDriverError (Option String) :=
  w.get_attribute b "id"

/-- WebElement::value: get_attribute("value"). -/
def WebElement.value (w : WebElement) (b : ElementBehavior) :
    Except WebDriverError (Option String) :=
  w.get_attribute b "value"

/-- WebElement::is_selected: forward the underlying is_selected call. -/
def WebElement.is_selected (_w : WebElement) (b : ElementBehavior) :
    Except WebDriverError Bool :=
  liftCmd b.is_selected

/-- WebElement::is_displayed: forward the underlying is_displayed call. -/
def WebElement.is_displayed (_w : WebElement) (b : ElementBehavior) :
    Except WebDriverError Bool :=
  liftCmd b.is_displayed

/-- WebElement::is_enabled: forward the underlying is_enabled call. -/
def WebElement.is_enabled (_w : WebElement) (b : ElementBehavior) :
    Except WebDriverError Bool :=
  liftCmd b.is_enabled

/-- WebElement::is_clickable: is_displayed() and, only when displayed,
is_enabled() (Rust short-circuit of the boolean and). -/
def WebElement.is_clickable (w : WebElement) (b : ElementBehavior) :
    Except WebDriverError Bool :=
  match w.is_displayed b with
  | Except.error e => Except.error e
  | Except.ok false => Except.ok false
  | Except.ok true =>
    match w.is_enabled b with
    | Except.error e => Except.error e
    | Except.ok en => Except.ok en

/-- WebElement::is_present: query the tag name; Ok maps to true, a
NoSuchElement error maps to false, any other error is returned. -/
def WebElement.is_present (w : WebElement) (b : ElementBehavior) :
    Except WebDriverError Bool :=
  match w.tag_name b with
  | Except.ok _ => Except.ok true
  | Except.error (WebDriverError.NoSuchElement _) => Except.ok false
  | Except.error e => Except.error e

/-- WebElement::find_element: forward to the underlying find with the
By converted to a locator; a NoSuchElement command error is re-mapped
to WebDriverError.NoSuchElement carrying the string form of the
selector, any other command error is wrapped as
WebDriverError.CmdError; the found element is paired with a clone of
the handle. -/
def WebElement.find_element (w : WebElement) (b : ElementBehavior) (by_ : By) :
    Except WebDriverError WebElement :=
  match b.find by_.locator with
  | Except.error (CmdError.NoSuchElement _) =>
    Except.error (WebDriverError.NoSuchElement by_.toString)
  | Except.error x => Except.error (WebDriverError.CmdError x)
  | Except.ok elem => Except.ok (WebElement.new elem w.handle.clone)

/-- WebElement::find_elements: forward to the underlying find_all with
the same error re-mapping as find_element; each found element is paired
with a clone of the handle. -/
def WebElement.find_elements (w : WebElement) (b : ElementBehavior) (by_ : By) :
    Except WebDriverError (List WebElement) :=
  match b.find_all by_.locator with
  | Except.error (CmdError.NoSuchElement _) =>
    Except.error (WebDriverError.NoSuchElement by_.toString)
  | Except.error x => Except.error (WebDriverError.CmdError x)
  | Except.ok elems =>
    Except.ok (elems.map (fun x => WebElement.new x w.handle.clone))

/-- WebElement::inner_html: get_property("innerHTML") with a missing
value defaulted to the empty string. -/
def WebElement.inner_html (w : WebElement) (b : ElementBehavior) :
    Except WebDriverError String :=
  (w.get_property b "innerHTML").map (fun x => x.getD "")

/-- WebElement::outer_html: get_property("outerHTML") with a missing
value defaulted to the empty string. -/
def WebElement.outer_html (w : WebElement) (b : ElementBehavior) :
    Except WebDriverError String :=
  (w.get_property b "outerHTML").map (fun x => x.getD "")

/-! ### Concrete fixtures used by witness instances -/

/-- A concrete client for witness instances. -/
def clientW : Client := { sessionId := 7 }

/-- A concrete session handle for witness instances. -/
def handleW : SessionHandle := { client := clientW }

/-- A concrete remote element reference for witness instances. -/
def elemRefW : ElementRef := { id := "wd-elem-1" }

/-- A concrete underlying element for witness instances. -/
def elementW : Element := { client := clientW, element := elemRefW }

/-- A concrete WebElement for witness instances. -/
def webElemW : WebElement := { element := elementW, handle := handleW }

/-- A behavior in which every underlying operation fails with a
Standard command error. -/
def behaviorErr : ElementBehavior :=
  { tag_name := Except.error (CmdError.Standard "boom")
    text := Except.error (CmdError.Standard "boom")
    click := Except.error (CmdError.Standard "boom")
    clear := Except.error (CmdError.Standard "boom")
    prop := fun _ => Except.error (CmdError.Standard "boom")
    attr := fun _ => Except.error (CmdError.Standard "boom")
    css_value := fun _ => Except.error (CmdError.Standard "boom")
    is_selected := Except.error (CmdError.Standard "boom")
    is_displayed := Except.error (CmdError.Standard "boom")
    is_enabled := Except.error (CmdError.Standard "boom")
    rectangle := Except.error (CmdError.Standard "boom")
    find := fun _ => Except.error (CmdError.Standard "boom")
    find_all := fun _ => Except.error (CmdError.Standard "boom") }

/-- A behavior in which every underlying operation succeeds. -/
def behaviorOk : ElementBehavior :=
  { tag_name := Except.ok "div"
    text := Except.ok "hello"
    click := Except.ok ()
    clear := Except.ok ()
    prop := fun _ => Except.ok (some "propval")
    attr := fun _ => Except.ok (some "attrval")
    css_value := fun _ => Except.ok "cssval"
    is_selected := Except.ok true
    is_displayed := Except.ok true
    is_enabled := Except.ok true
    rectangle := Except.ok (1, 2, 3, 4)
    find := fun _ => Except.ok elementW
    find_all := fun _ => Except.ok [elementW] }

/-- A behavior in which the searches and the tag-name query fail with a
NoSuchElement command error. -/
def behaviorNse : ElementBehavior :=
  { behaviorErr with
    tag_name := Except.error (CmdError.NoSuchElement "nse")
    find := fun _ => Except.error (CmdError.NoSuchElement "nse")
    find_all := fun _ => Except.error (CmdError.NoSuchElement "nse") }

/-- The JSON form of the concrete element reference. -/
def elemJson : Json := Json.obj [(elementKeyW3C, Json.str "wd-elem-1")]

/-- A concrete script return holding a single element reference. -/
def scriptRetElem : ScriptRet := { handle := handleW, value := elemJson }

/-- A concrete script return holding an array with one element
reference. -/
def scriptRetArr : ScriptRet := { handle := handleW, value := Json.arr [elemJson] }

/-! ### Helper lemmas -/

/-- Cloning a session handle yields the same handle. -/
theorem SessionHandle.clone_eq (h : SessionHandle) : h.clone = h := rfl

/-- A successful from_json pairs the element with exactly the handle
passed in. -/
theorem from_json_handle (v : Json) (h : SessionHandle) (r : WebElement)
    (hr : WebElement.from_json v h = Except.ok r) : r.handle = h := by
  unfold WebElement.from_json at hr
  cases hv : elementRefFromJson v with
  | error e => rw [hv] at hr; exact Except.noConfusion hr
  | ok element_ref =>
    rw [hv] at hr
    cases hr
    rfl

/-- A successful tryMapAll relates inputs to outputs pointwise in
order. -/
theorem tryMapAll_ok_forall2 {E A B : Type} (f : A → Except E B) :
    ∀ (xs : List A) (ys : List B), tryMapAll f xs = Except.ok ys →
      List.Forall₂ (fun x y => f x = Except.ok y) xs ys := by
  intro xs
  induction xs with
  | nil =>
    intro ys h
    cases h
    exact List.Forall₂.nil
  | cons x rest ih =>
    intro ys h
    unfold tryMapAll at h
    cases hfx : f x with
    | error e => rw [hfx] at h; exact Except.noConfusion h
    | ok b =>
      rw [hfx] at h
      cases hrec : tryMapAll f rest with
      | error e => rw [hrec] at h; exact Except.noConfusion h
      | ok bs =>
        rw [hrec] at h
        cases h
        exact List.Forall₂.cons hfx (ih bs hrec)

/-- A pointwise relation between two lists yields, for every member of
the right list, a related member of the left list. -/
theorem forall2_mem_right {A B : Type} {P : A → B → Prop} :
    ∀ {xs : List A} {ys : List B}, List.Forall₂ P xs ys →
      ∀ y ∈ ys, ∃ x ∈ xs, P x y := by
  intro xs ys h
  induction h with
  | nil => intro y hy; cases hy
  | cons hab _ ih =>
    intro y hy
    rcases List.mem_cons.mp hy with hEq | hMem
    · subst hEq
      exact ⟨_, List.mem_cons_self _ _, hab⟩
    · rcases ih y hMem with ⟨x, hx, hpx⟩
      exact ⟨x, List.mem_cons_of_mem _ hx, hpx⟩

/-- Every output of a successful tryMapAll is the image of some
input. -/
theorem tryMapAll_ok_mem {E A B : Type} (f : A → Except E B)
    (xs : List A) (ys : List B) (h : tryMapAll f xs = Except.ok ys) :
    ∀ y ∈ ys, ∃ x ∈ xs, f x = Except.ok y :=
  forall2_mem_right (tryMapAll_ok_forall2 f xs ys h)

/-- If every input converts successfully then so does tryMapAll. -/
theorem tryMapAll_total {E A B : Type} (f : A → Except E B) :
    ∀ xs : List A, (∀ x ∈ xs, ∃ y, f x = Except.ok y) →
      ∃ ys, tryMapAll f xs = Except.ok ys := by
  intro xs
  induction xs with
  | nil => intro _; exact ⟨[], rfl⟩
  | cons x rest ih =>
    intro hall
    rcases hall x (List.mem_cons_self _ _) with ⟨y, hy⟩
    rcases ih (fun z hz => hall z (List.mem_cons_of_mem _ hz)) with ⟨ys, hys⟩
    refine ⟨y :: ys, ?_⟩
    unfold tryMapAll
    rw [hy, hys]

/-! ### Claims -/

/-- Claim C5: get_element returns exactly the result of
WebElement::from_json applied to the stored JSON value and stored
session handle: Ok of a WebElement when the value deserializes to a
single element reference, and the deserialization error otherwise. -/
theorem get_element_spec (r : ScriptRet) :
    r.get_element = WebElement.from_json r.value r.handle ∧
    (∀ ref, elementRefFromJson r.value = Except.ok ref →
      r.get_element = Except.ok
        { element := Element.from_element_id r.handle.client ref,
          handle := r.handle }) ∧
    (∀ e, elementRefFromJson r.value = Except.error e →
      r.get_element = Except.error (WebDriverError.DecodeError e)) := by
  refine ⟨rfl, ?_, ?_⟩
  · intro ref href
    unfold ScriptRet.get_element WebElement.from_json
    rw [href]
    rfl
  · intro e he
    unfold ScriptRet.get_element WebElement.from_json
    rw [he]

/-- Witness for C5 at a concrete script return holding one element
reference. -/
theorem get_element_spec_witness :
    scriptRetElem.get_element = Except.ok
      { element := Element.from_element_id handleW.client { id := "wd-elem-1" },
        handle := handleW } := by
  exact (get_element_spec scriptRetElem).2.1 { id := "wd-elem-1" } rfl

/-- Claim C7: rect() returns Ok of an ElementRect whose x, y, width,
height fields are, in order, the four components of the tuple returned
by the underlying rectangle query, unchanged; when the underlying query
fails, rect() returns that error (converted to WebDriverError). -/
theorem rect_spec (w : WebElement) (b : ElementBehavior) :
    (∀ x y wd h, b.rectangle = Except.ok (x, y, wd, h) →
      w.rect b = Except.ok { x := x, y := y, width := wd, height := h }) ∧
    (∀ e, b.rectangle = Except.error e →
      w.rect b = Except.error (WebDriverError.fromCmdError e)) := by
  constructor
  · intro x y wd h hr
    unfold WebElement.rect
    rw [hr]
  · intro e he
    unfold WebElement.rect
    rw [he]

/-- Witness for C7 at a concrete rectangle. -/
theorem rect_spec_witness :
    webElemW.rect behaviorOk =
      Except.ok { x := 1, y := 2, width := 3, height := 4 } := by
  exact (rect_spec webElemW behaviorOk).1 1 2 3 4 rfl

/-- Claim C8: cloning a WebElement yields an element whose session
handle is the same shared handle, referring to the same session; the
clone also shares the remote element reference. -/
theorem clone_shares_session (w : WebElement) :
    (WebElement.clone w).handle = w.handle ∧
    (WebElement.clone w).handle.client = w.handle.client ∧
    (WebElement.clone w).element = w.element ∧
    SessionHandle.clone w.handle = w.handle :=
  ⟨rfl, rfl, rfl, rfl⟩

/-- Claim C9: class_name(), id() and value() return exactly the same
result as get_attribute called with "class", "id" and "value". -/
theorem attribute_shortcuts (w : WebElement) (b : ElementBehavior) :
    w.class_name b = w.get_attribute b "class" ∧
    w.id b = w.get_attribute b "id" ∧
    w.value b = w.get_attribute b "value" :=
  ⟨rfl, rfl, rfl⟩

/-- Claim C1: when the underlying search fails with a NoSuchElement
command error, find_element and find_elements return
WebDriverError.NoSuchElement carrying the string form of the selector;
every other underlying error is wrapped as WebDriverError.CmdError; and
no failing underlying search yields Ok. -/
theorem find_error_mapping (w : WebElement) (b : ElementBehavior) (by_ : By) :
    (∀ e, b.find by_.locator = Except.error (CmdError.NoSuchElement e) →
      w.find_element b by_ =
        Except.error (WebDriverError.NoSuchElement by_.toString)) ∧
    (∀ e, b.find by_.locator = Except.error e →
      (∀ m, e ≠ CmdError.NoSuchElement m) →
      w.find_element b by_ = Except.error (WebDriverError.CmdError e)) ∧
    (∀ e r, b.find by_.locator = Except.error e →
      w.find_element b by_ ≠ Except.ok r) ∧
    (∀ e, b.find_all by_.locator = Except.error (CmdError.NoSuchElement e) →
      w.find_elements b by_ =
        Except.error (WebDriverError.NoSuchElement by_.toString)) ∧
    (∀ e, b.find_all by_.locator = Except.error e →
      (∀ m, e ≠ CmdError.NoSuchElement m) →
      w.find_elements b by_ = Except.error (WebDriverError.CmdError e)) ∧
    (∀ e rs, b.find_all by_.locator = Except.error e →
      w.find_elements b by_ ≠ Except.ok rs) := by
  refine ⟨?_, ?_, ?_, ?_, ?_, ?_⟩
  · intro e he
    unfold WebElement.find_element
    rw [he]
  · intro e he hne
    unfold WebElement.find_element
    rw [he]
    cases e with
    | NoSuchElement m => exact absurd rfl (hne m)
    | Standard m => rfl
    | NotW3C v => rfl
    | JsonDecode m => rfl
  · intro e r he
    unfold WebElement.find_element
    rw [he]
    cases e <;> exact fun h => Except.noConfusion h
  · intro e he
    unfold WebElement.find_elements
    rw [he]
  · intro e he hne
    unfold WebElement.find_elements
    rw [he]
    cases e with
    | NoSuchElement m => exact absurd rfl (hne m)
    | Standard m => rfl
    | NotW3C v => rfl
    | JsonDecode m => rfl
  · intro e rs he
    unfold WebElement.find_elements
    rw [he]
    cases e <;> exact fun h => Except.noConfusion h

/-- Witness for C1: a NoSuchElement search error is re-mapped to the
selector string, and a Standard search error is wrapped as CmdError. -/
theorem find_error_mapping_witness :
    webElemW.find_element behaviorNse (By.Css "button") =
      Except.error (WebDriverError.NoSuchElement (By.Css "button").toString) ∧
    webElemW.find_elements behaviorErr (By.Css "button") =
      Except.error (WebDriverError.CmdError (CmdError.Standard "boom")) := by
  constructor
  · exact (find_error_mapping webElemW behaviorNse (By.Css "button")).1 "nse" rfl
  · exact (find_error_mapping webElemW behaviorErr (By.Css "button")).2.2.2.2.1
      (CmdError.Standard "boom") rfl (fun m h => CmdError.noConfusion h)

/-- Claim C3: the forwarding operations tag_name, text, click and clear
return exactly the value produced by the corresponding underlying
Element operation, or its error converted to WebDriverError, adding no
logic of their own. -/
theorem forwarding_ops (w : WebElement) (b : ElementBehavior) :
    (∀ s, b.tag_name = Except.ok s → w.tag_name b = Except.ok s) ∧
    (∀ e, b.tag_name = Except.error e →
      w.tag_name b = Except.error (WebDriverError.fromCmdError e)) ∧
    (∀ s, b.text = Except.ok s → w.text b = Except.ok s) ∧
    (∀ e, b.text = Except.error e →
      w.text b = Except.error (WebDriverError.fromCmdError e)) ∧
    (b.click = Except.ok () → w.click b = Except.ok ()) ∧
    (∀ e, b.click = Except.error e →
      w.click b = Except.error (WebDriverError.fromCmdError e)) ∧
    (b.clear = Except.ok () → w.clear b = Except.ok ()) ∧
    (∀ e, b.clear = Except.error e →
      w.clear b = Except.error (WebDriverError.fromCmdError e)) := by
  refine ⟨?_, ?_, ?_, ?_, ?_, ?_, ?_, ?_⟩
  · intro s h; unfold WebElement.tag_name liftCmd; rw [h]
  · intro e h; unfold WebElement.tag_name liftCmd; rw [h]
  · intro s h; unfold WebElement.text liftCmd; rw [h]
  · intro e h; unfold WebElement.text liftCmd; rw [h]
  · intro h; unfold WebElement.click; rw [h]
  · intro e h; unfold WebElement.click; rw [h]
  · intro h; unfold WebElement.clear liftCmd; rw [h]
  · intro e h; unfold WebElement.clear liftCmd; rw [h]

/-- Witness for C3: a successful tag_name forwards its value, a failing
click forwards its converted error. -/
theorem forwarding_ops_witness :
    webElemW.tag_name behaviorOk = Except.ok "div" ∧
    webElemW.click behaviorErr =
      Except.error (WebDriverError.fromCmdError (CmdError.Standard "boom")) := by
  constructor
  · exact (forwarding_ops webElemW behaviorOk).1 "div" rfl
  · exact (forwarding_ops webElemW behaviorErr).2.2.2.2.2.1
      (CmdError.Standard "boom") rfl

/-- Claim C6: is_present() returns Ok true exactly when the tag-name
query succeeds, Ok false exactly when the tag-name query fails with
WebDriverError.NoSuchElement, and returns any other tag-name error
unchanged; it never maps a non-NoSuchElement error to Ok false. -/
theorem is_present_spec (w : WebElement) (b : ElementBehavior) :
    (w.is_present b = Except.ok true ↔ ∃ s, w.tag_name b = Except.ok s) ∧
    (w.is_present b = Except.ok false ↔
      ∃ m, w.tag_name b = Except.error (WebDriverError.NoSuchElement m)) ∧
    (∀ e, w.tag_name b = Except.error e →
      (∀ m, e ≠ WebDriverError.NoSuchElement m) →
      w.is_present b = Except.error e) := by
  unfold WebElement.is_present WebElement.tag_name liftCmd
  cases b.tag_name with
  | ok s =>
    refine ⟨?_, ?_, ?_⟩
    · simp
    · simp
    · intro e he
      exact absurd he (fun h => Except.noConfusion h)
  | error e =>
    cases e with
    | NoSuchElement m =>
      refine ⟨?_, ?_, ?_⟩
      · simp [WebDriverError.fromCmdError]
      · simp [WebDriverError.fromCmdError]
      · intro e he hne
        simp [WebDriverError.fromCmdError] at he
        subst he
        exact absurd rfl (hne m)
    | Standard m =>
      refine ⟨?_, ?_, ?_⟩
      · simp [WebDriverError.fromCmdError]
      · simp [WebDriverError.fromCmdError]
      · intro e he hne
        simp [WebDriverError.fromCmdError] at he
        subst he
        rfl
    | NotW3C v =>
      refine ⟨?_, ?_, ?_⟩
      · simp [WebDriverError.fromCmdError]
      · simp [WebDriverError.fromCmdError]
      · intro e he hne
        simp [WebDriverError.fromCmdError] at he
        subst he
        rfl
    | JsonDecode m =>
      refine ⟨?_, ?_, ?_⟩
      · simp [WebDriverError.fromCmdError]
      · simp [WebDriverError.fromCmdError]
      · intro e he hne
        simp [WebDriverError.fromCmdError] at he
        subst he
        rfl

/-- Witness for C6: a Standard tag-name failure is returned unchanged
by is_present. -/
theorem is_present_spec_witness :
    webElemW.is_present behaviorErr =
      Except.error (WebDriverError.CmdError (CmdError.Standard "boom")) := by
  exact (is_present_spec webElemW behaviorErr).2.2
    (WebDriverError.CmdError (CmdError.Standard "boom")) rfl
    (fun m h => WebDriverError.noConfusion h)

/-- Claim C10: inner_html() and outer_html() never report a missing
value: a successful property query with no value yields Ok of the empty
string, a successful query with Some s yields Ok s, and a failing query
yields its error unchanged. -/
theorem html_default_spec (w : WebElement) (b : ElementBehavior) :
    (w.get_property b "innerHTML" = Except.ok none →
      w.inner_html b = Except.ok "") ∧
    (∀ s, w.get_property b "innerHTML" = Except.ok (some s) →
      w.inner_html b = Except.ok s) ∧
    (∀ e, w.get_property b "innerHTML" = Except.error e →
      w.inner_html b = Except.error e) ∧
    (w.get_property b "outerHTML" = Except.ok none →
      w.outer_html b = Except.ok "") ∧
    (∀ s, w.get_property b "outerHTML" = Except.ok (some s) →
      w.outer_html b = Except.ok s) ∧
    (∀ e, w.get_property b "outerHTML" = Except.error e →
      w.outer_html b = Except.error e) := by
  refine ⟨?_, ?_, ?_, ?_, ?_, ?_⟩
  · intro h; unfold WebElement.inner_html; rw [h]; rfl
  · intro s h; unfold WebElement.inner_html; rw [h]; rfl
  · intro e h; unfold WebElement.inner_html; rw [h]; rfl
  · intro h; unfold WebElement.outer_html; rw [h]; rfl
  · intro s h; unfold WebElement.outer_html; rw [h]; rfl
  · intro e h; unfold WebElement.outer_html; rw [h]; rfl

/-- Witness for C10: a present innerHTML value is returned as is, a
failing outerHTML query returns its error. -/
theorem html_default_spec_witness :
    webElemW.inner_html behaviorOk = Except.ok "propval" ∧
    webElemW.outer_html behaviorErr =
      Except.error (WebDriverError.fromCmdError (CmdError.Standard "boom")) := by
  constructor
  · exact (html_default_spec webElemW behaviorOk).2.1 "propval" rfl
  · exact (html_default_spec webElemW behaviorErr).2.2.2.2.2
      (WebDriverError.fromCmdError (CmdError.Standard "boom")) rfl

/-- Claim C2: every WebElement constructed by this layer, whether by
find_element or find_elements on an element, by from_json, or by
get_element or get_elements on a script return, carries the session
handle that produced it. -/
theorem element_handle_scoping :
    (∀ (w : WebElement) (b : ElementBehavior) (by_ : By) (r : WebElement),
      w.find_element b by_ = Except.ok r → r.handle = w.handle) ∧
    (∀ (w : WebElement) (b : ElementBehavior) (by_ : By) (rs : List WebElement),
      w.find_elements b by_ = Except.ok rs → ∀ r ∈ rs, r.handle = w.handle) ∧
    (∀ (v : Json) (h : SessionHandle) (r : WebElement),
      WebElement.from_json v h = Except.ok r → r.handle = h) ∧
    (∀ (s : ScriptRet) (r : WebElement),
      s.get_element = Except.ok r → r.handle = s.handle) ∧
    (∀ (s : ScriptRet) (rs : List WebElement),
      s.get_elements = Except.ok rs → ∀ r ∈ rs, r.handle = s.handle) := by
  refine ⟨?_, ?_, ?_, ?_, ?_⟩
  · intro w b by_ r h
    unfold WebElement.find_element at h
    cases hf : b.find by_.locator with
    | error e =>
      rw [hf] at h
      cases e <;> exact Except.noConfusion h
    | ok elem =>
      rw [hf] at h
      cases h
      rfl
  · intro w b by_ rs h
    unfold WebElement.find_elements at h
    cases hf : b.find_all by_.locator with
    | error e =>
      rw [hf] at h
      cases e <;> exact Except.noConfusion h
    | ok elems =>
      rw [hf] at h
      cases h
      intro r hr
      rcases List.mem_map.mp hr with ⟨x, _, hx⟩
      subst hx
      rfl
  · intro v h r hr
    exact from_json_handle v h r hr
  · intro s r h
    exact from_json_handle s.value s.handle r h
  · intro s rs h
    unfold ScriptRet.get_elements at h
    cases hv : jsonAsValueVec s.value with
    | error e =>
      rw [hv] at h
      exact Except.noConfusion h
    | ok values =>
      rw [hv] at h
      intro r hr
      rcases tryMapAll_ok_mem _ values rs h r hr with ⟨x, _, hx⟩
      exact from_json_handle x s.handle.clone r hx

/-- Witness for C2: a successful child search pairs the found element
with the handle of the searched element. -/
theorem element_handle_scoping_witness :
    (WebElement.new elementW handleW.clone).handle = webElemW.handle := by
  exact element_handle_scoping.1 webElemW behaviorOk (By.Css "q")
    (WebElement.new elementW handleW.clone) rfl

/-- Claim C4: when the stored JSON value is an array in which every
entry deserializes to an element reference, get_elements returns Ok of
the list obtained by converting each entry in order, each paired with
the stored session handle; a failing entry conversion propagates its
error, and a non-array stored value yields the deserialization
error. -/
theorem get_elements_spec (r : ScriptRet) :
    (∀ vs, r.value = Json.arr vs →
      ((∀ v ∈ vs, ∃ w, WebElement.from_json v r.handle = Except.ok w) →
        ∃ ws, r.get_elements = Except.ok ws ∧
          List.Forall₂
            (fun v w => WebElement.from_json v r.handle = Except.ok w) vs ws ∧
          ∀ w ∈ ws, w.handle = r.handle) ∧
      (∀ e, tryMapAll (fun v => WebElement.from_json v r.handle) vs =
          Except.error e →
        r.get_elements = Except.error e)) ∧
    ((∀ vs, r.value ≠ Json.arr vs) →
      r.get_elements =
        Except.error
          (WebDriverError.DecodeError "invalid type: expected a sequence")) := by
  constructor
  · intro vs hvs
    constructor
    · intro hall
      rcases tryMapAll_total (fun v => WebElement.from_json v r.handle) vs hall with
        ⟨ws, hws⟩
      refine ⟨ws, ?_, ?_, ?_⟩
      · unfold ScriptRet.get_elements
        rw [hvs]
        exact hws
      · exact tryMapAll_ok_forall2 _ vs ws hws
      · intro w hw
        rcases tryMapAll_ok_mem _ vs ws hws w hw with ⟨x, _, hx⟩
        exact from_json_handle x r.handle w hx
    · intro e he
      unfold ScriptRet.get_elements
      rw [hvs]
      exact he
  · intro hne
    unfold ScriptRet.get_elements
    cases hv : r.value with
    | null => rfl
    | bool b2 => rfl
    | num n => rfl
    | str s => rfl
    | obj fields => rfl
    | arr elems => exact absurd hv (hne elems)

/-- Witness for C4 at a concrete one-element array script return. -/
theorem get_elements_spec_witness :
    ∃ ws, scriptRetArr.get_elements = Except.ok ws ∧
      List.Forall₂
        (fun v w => WebElement.from_json v scriptRetArr.handle = Except.ok w)
        [elemJson] ws ∧
      ∀ w ∈ ws, w.handle = scriptRetArr.handle := by
  refine ((get_elements_spec scriptRetArr).1 [elemJson] rfl).1 ?_
  intro v hv
  have hv2 : v = elemJson := List.mem_singleton.mp hv
  subst hv2
  exact ⟨WebElement.new (Element.from_element_id clientW elemRefW) handleW, rfl⟩
